import Mathlib

/-!
Formal model of the coherence_engine metrics pipeline and its incident
automation, embedded shallowly in Lean 4.

Sources modelled:
  * `app/compute/metrics.py` — the Phase-2 metrics pipeline
    (`_rolling_mean`, `_normalized_volatility`, `_trend_label`,
    `_risk_from_liquidity`, `compute_metrics`).
  * `automation/drift_sentry.py` — threshold loading (`_env_thresholds`),
    the risk band variant, window labels, `build_incident`, and the
    incident-emission slice of `main`.
  * `coherence_protocol_data_coherence_engine_v_0.py` — the legacy v0
    analytics (`compute_basic_metrics`, `classify_drift_risk`).

Python floats are modelled as real numbers; the v0 module, which produces
NaN and +inf through explicit literals, uses an extended type `V0.EF`.
Environment variables are modelled as `Option` values already parsed to
numbers (absence or a parse failure selects the documented default, exactly
as the code's `os.getenv(..., default)` / `except` paths do).
-/

namespace CoherenceEngine

noncomputable section

open scoped Classical

/-- `statistics.mean` on a list of floats: sum divided by length
(never called on an empty list by the modelled code paths). -/
def mean (xs : List ℝ) : ℝ := xs.sum / xs.length

/-- `statistics.pstdev`: population standard deviation,
`sqrt(Σ (x - mean)² / n)`. -/
def pstdev (xs : List ℝ) : ℝ :=
  Real.sqrt ((xs.map (fun x => (x - mean xs) ^ 2)).sum / xs.length)

/-- `STABILITY_HIGH_MIN` (metrics.py line 6), env default `0.80`. -/
def STABILITY_HIGH_MIN : ℝ := 80 / 100

/-- `STABILITY_MEDIUM_MIN` (metrics.py line 7), env default `0.55`. -/
def STABILITY_MEDIUM_MIN : ℝ := 55 / 100

/-- `COHERENCE_WARN_THRESHOLD` (metrics.py line 9), env default `0.10`. -/
def COHERENCE_WARN_THRESHOLD : ℝ := 10 / 100

/-- `COHERENCE_CRITICAL_THRESHOLD` (metrics.py line 10), env default `0.25`. -/
def COHERENCE_CRITICAL_THRESHOLD : ℝ := 25 / 100

/-- `_rolling_mean` (metrics.py line 13): mean of the series, `0.0` if empty. -/
def _rolling_mean (values : List ℝ) : ℝ :=
  if values = [] then 0 else mean values

/-- `_normalized_volatility` (metrics.py lines 17-27):
`pstdev(values) / m` where `m = mean(values)`; `0.0` if the series is
empty or the mean is zero.  Note the divisor is the mean itself, not its
absolute value. -/
def _normalized_volatility (values : List ℝ) : ℝ :=
  if values = [] then 0
  else if mean values = 0 then 0
  else pstdev values / mean values

/-- `_trend_label` (metrics.py lines 30-47): half-window trend detection. -/
def _trend_label (values : List ℝ) : String :=
  let n := values.length
  if n < 6 then "Steady"
  else
    let mid := n / 2
    let prev_m := mean (values.take mid)
    let recent_m := mean (values.drop mid)
    let pct := if prev_m = 0 then 0 else (recent_m - prev_m) / |prev_m|
    if (3 / 100 : ℝ) ≤ pct then "Improving"
    else if pct ≤ -(3 / 100 : ℝ) then "Deteriorating"
    else "Steady"

/-- `_risk_from_liquidity` (metrics.py lines 50-63).  The source reads the
two env-driven module constants; they are passed here explicitly
(`compute_metrics` instantiates them with the module constants above). -/
def _risk_from_liquidity (warn crit liq : ℝ) : String :=
  if liq < warn then "low"
  else if liq < crit then "medium"
  else "high"

/-- Python's `round` to an integer: banker's rounding
(round half to even), as applied by `round(x, 4)`. -/
def pyRound (x : ℝ) : ℤ :=
  if x - ⌊x⌋ = 1 / 2 then (if Even ⌊x⌋ then ⌊x⌋ else ⌊x⌋ + 1)
  else round x

/-- Python's `round(x, 4)`. -/
def round4 (x : ℝ) : ℝ := (pyRound (x * 10000) : ℝ) / 10000

/-- The `interpretation` sub-dict of the `compute_metrics` payload. -/
structure Interpretation where
  stability : String
  trustContinuity : String
  coherenceTrend : String

/-- The `meta` sub-dict of the `compute_metrics` payload (the `timestamp`
key is added by the API layer, outside this module). -/
structure MetaInfo where
  method : String
  windowSec : ℕ
  n : ℕ

/-- The dict returned by `compute_metrics` (metrics.py lines 106-127),
with every key it unconditionally carries. -/
structure Payload where
  interactionStability : ℝ
  signalVolatility : ℝ
  trustContinuityRiskLevel : String
  coherenceTrend : String
  interpretation : Interpretation
  meta : MetaInfo
  coherenceMean : ℝ
  volatilityIndex : ℝ
  predictedDriftRisk : String

/-- `compute_metrics` (metrics.py lines 66-129). -/
def compute_metrics (series : List ℝ) (window_sec : ℕ) : Payload :=
  let stability := _rolling_mean series
  let liquidity := _normalized_volatility series
  let risk := _risk_from_liquidity COHERENCE_WARN_THRESHOLD COHERENCE_CRITICAL_THRESHOLD liquidity
  let trend := _trend_label series
  let stability_band :=
    if STABILITY_HIGH_MIN ≤ stability then "High"
    else if STABILITY_MEDIUM_MIN ≤ stability then "Medium"
    else "Low"
  let trust_band :=
    if risk = "low" then "Stable"
    else if risk = "medium" then "At Risk"
    else "Critical"
  { interactionStability := round4 stability
    signalVolatility := round4 liquidity
    trustContinuityRiskLevel := risk
    coherenceTrend := trend
    interpretation :=
      { stability := stability_band
        trustContinuity := trust_band
        coherenceTrend := trend }
    meta :=
      { method := "rolling mean/stdev; half-window trend"
        windowSec := window_sec
        n := series.length }
    coherenceMean := round4 stability
    volatilityIndex := round4 liquidity
    predictedDriftRisk := risk }

/-- The spec's fixed 1:1 map from risk level to trust-continuity band
(spec §4.4 step 6: low→Stable, medium→At Risk, high→Critical), written
from the spec's words to compare against the `trust_band` expression of
`compute_metrics`. -/
def trust_continuity_map (risk : String) : String :=
  if risk = "low" then "Stable"
  else if risk = "medium" then "At Risk"
  else "Critical"

namespace DriftSentry

/-- `_env_thresholds` (drift_sentry.py lines 116-129).  The two env
variables arrive already parsed (`none` = unset or unparseable, which the
source's `except` clause maps to the same fallback).  When a value is
non-positive or the ordering `warn < crit` fails, the source raises and
immediately catches `ValueError`, returning the default pair `(0.10, 0.25)`. -/
def _env_thresholds (warnEnv critEnv : Option ℝ) : ℝ × ℝ :=
  let warn := warnEnv.getD (10 / 100)
  let crit := critEnv.getD (25 / 100)
  if warn ≤ 0 ∨ crit ≤ 0 ∨ crit ≤ warn then (10 / 100, 25 / 100)
  else (warn, crit)

/-- `_risk_from_liquidity` (drift_sentry.py lines 132-137): the sentry's
own risk band over explicit thresholds. -/
def _risk_from_liquidity (liq warn crit : ℝ) : String :=
  if crit ≤ liq then "high"
  else if warn ≤ liq then "medium"
  else "low"

/-- `_as_duration_label` (drift_sentry.py lines 140-148): pretty-print an
integer window in seconds, pass a string window through unchanged. -/
def _as_duration_label : ℕ ⊕ String → String
  | Sum.inl window =>
      if window % 3600 = 0 then toString (window / 3600) ++ "h"
      else if window % 60 = 0 then toString (window / 60) ++ "m"
      else toString window ++ "s"
  | Sum.inr window => window

/-- The `trace` sub-dict of an incident. -/
structure Trace where
  source : String
  upstream : String

/-- The ledger-ready incident dict built by `build_incident`. -/
structure Incident where
  event : String
  timestamp : String
  window : String
  signalStability : ℝ
  signalLiquidity : ℝ
  trustContinuityRisk : String
  trace : Trace

/-- `build_incident` (drift_sentry.py lines 153-183).  `now` stands for the
wall-clock `iso_utc_z()` timestamp, supplied by the caller here. -/
def build_incident (window_label : String) (signal_stability signal_liquidity : ℝ)
    (trust_risk trace_source upstream now : String) : Incident :=
  { event := "trust_continuity_alert"
    timestamp := now
    window := window_label
    signalStability := round4 signal_stability
    signalLiquidity := round4 signal_liquidity
    trustContinuityRisk := trust_risk
    trace := { source := trace_source, upstream := upstream } }

/-- The incident-emission slice of `main` (drift_sentry.py lines 211-235):
given the already-loaded series, it computes the Phase-2 payload, derives
the effective risk from the env thresholds, builds one incident and writes
it to disk.  The returned list models the set of incident files the run
persists: the source has no minimum-severity parameter and no branch
guarding the write, so exactly one incident is always written.  Series
loading, console output and the exit code are outside this slice. -/
def main_written_incidents (series : List ℝ) (window_sec : ℕ) (window_arg : String)
    (warnEnv critEnv : Option ℝ) (trace_source upstream now : String) : List Incident :=
  let payload := compute_metrics series window_sec
  let wc := _env_thresholds warnEnv critEnv
  let effective_risk := _risk_from_liquidity payload.signalVolatility wc.1 wc.2
  [build_incident (_as_duration_label (Sum.inr window_arg)) payload.interactionStability
      payload.signalVolatility effective_risk trace_source upstream now]

end DriftSentry

namespace V0

/-- A Python float as the v0 module uses it: NaN and +inf arise only from
the explicit `float("nan")` / `float("inf")` literals. -/
inductive EF where
  | nan : EF
  | inf : EF
  | val : ℝ → EF

/-- IEEE `a > c` for a finite constant `c` (false on NaN, true on +inf). -/
def EF.gtc : EF → ℝ → Prop
  | .nan, _ => False
  | .inf, _ => True
  | .val x, c => c < x

/-- IEEE `a < c` for a finite constant `c` (false on NaN and on +inf). -/
def EF.ltc : EF → ℝ → Prop
  | .nan, _ => False
  | .inf, _ => False
  | .val x, c => x < c

/-- IEEE `a ≤ c` for a finite constant `c` (false on NaN and on +inf). -/
def EF.lec : EF → ℝ → Prop
  | .nan, _ => False
  | .inf, _ => False
  | .val x, c => x ≤ c

/-- IEEE `a ≥ c` for a finite constant `c` (false on NaN, true on +inf). -/
def EF.gec : EF → ℝ → Prop
  | .nan, _ => False
  | .inf, _ => True
  | .val x, c => c ≤ x

/-- `np.std(values, ddof=1)`: sample standard deviation
(only evaluated by the source when `n > 1`). -/
def sampleStd (xs : List ℝ) : ℝ :=
  Real.sqrt ((xs.map (fun x => (x - mean xs) ^ 2)).sum / ((xs.length - 1 : ℕ) : ℝ))

/-- `compute_basic_metrics` (v0 module lines 182-197).  A row is modelled by
its `coherenceScore` field (`none` for a null score), the only field the
function reads.  Returns `(coherenceMean, volatilityIndex, n)`. -/
def compute_basic_metrics (rows : List (Option ℝ)) : EF × EF × ℕ :=
  if rows = [] then (EF.nan, EF.nan, 0)
  else
    let values := rows.filterMap id
    let n := values.length
    if n = 0 then (EF.nan, EF.nan, 0)
    else
      let mean_val := mean values
      let stdev := if 1 < n then sampleStd values else 0
      let volatility_index := if mean_val ≠ 0 then EF.val (stdev / mean_val) else EF.inf
      (EF.val mean_val, volatility_index, n)

/-- `classify_drift_risk` (v0 module lines 200-214). -/
def classify_drift_risk (coherence_mean volatility_index : EF) : String :=
  if coherence_mean = EF.nan ∨ volatility_index = EF.nan then "unknown"
  else if volatility_index.gtc (25 / 100) ∨ coherence_mean.ltc 60 then "high"
  else if (volatility_index.gtc (10 / 100) ∧ volatility_index.lec (25 / 100)) ∨
      (coherence_mean.gec 60 ∧ coherence_mean.ltc 80) then "medium"
  else "low"

end V0

/-! Helper lemmas about the statistics primitives. -/

lemma mean_const {l : List ℝ} {v : ℝ} (h0 : l ≠ []) (h : ∀ x ∈ l, x = v) :
    mean l = v := by
  have hn : (l.length : ℝ) ≠ 0 :=
    Nat.cast_ne_zero.mpr (fun hl => h0 (List.length_eq_zero.mp hl))
  rw [mean, List.sum_eq_card_nsmul l v h, nsmul_eq_mul]
  exact mul_div_cancel_left₀ v hn

lemma pstdev_const {l : List ℝ} {v : ℝ} (h0 : l ≠ []) (h : ∀ x ∈ l, x = v) :
    pstdev l = 0 := by
  have hm := mean_const h0 h
  have hz : (l.map (fun x => (x - mean l) ^ 2)).sum = 0 := by
    apply List.sum_eq_zero
    intro y hy
    obtain ⟨x, hx, hxy⟩ := List.mem_map.mp hy
    rw [← hxy, h x hx, hm]
    ring
  rw [pstdev, hz, zero_div, Real.sqrt_zero]

lemma normalized_volatility_const {l : List ℝ} {v : ℝ} (h0 : l ≠ [])
    (h : ∀ x ∈ l, x = v) : _normalized_volatility l = 0 := by
  rw [_normalized_volatility, if_neg h0]
  by_cases hm : mean l = 0
  · rw [if_pos hm]
  · rw [if_neg hm, pstdev_const h0 h, zero_div]

lemma trend_label_const {l : List ℝ} {v : ℝ} (h : ∀ x ∈ l, x = v) :
    _trend_label l = "Steady" := by
  rw [_trend_label]
  by_cases hn : l.length < 6
  · simp only [if_pos hn]
  · have h6 : 6 ≤ l.length := Nat.not_lt.mp hn
    have htake : l.take (l.length / 2) ≠ [] := by
      intro hc
      have hlen := congrArg List.length hc
      simp only [List.length_take, List.length_nil] at hlen
      omega
    have hdrop : l.drop (l.length / 2) ≠ [] := by
      intro hc
      have hlen := congrArg List.length hc
      simp only [List.length_drop, List.length_nil] at hlen
      omega
    have h1 : mean (l.take (l.length / 2)) = v :=
      mean_const htake (fun x hx => h x (List.take_subset _ _ hx))
    have h2 : mean (l.drop (l.length / 2)) = v :=
      mean_const hdrop (fun x hx => h x (List.drop_subset _ _ hx))
    simp only [if_neg hn, h1, h2]
    have hpct : (if v = 0 then (0 : ℝ) else (v - v) / |v|) = 0 := by
      by_cases hv : v = 0 <;> simp [hv]
    rw [hpct]
    norm_num

lemma pyRound_intCast (n : ℤ) : pyRound (n : ℝ) = n := by
  rw [pyRound, Int.floor_intCast]
  rw [if_neg (by norm_num)]
  exact round_intCast n

lemma round4_eq_self {x : ℝ} {n : ℤ} (h : x * 10000 = n) : round4 x = x := by
  rw [round4, h, pyRound_intCast, ← h]
  exact mul_div_cancel_right₀ x (by norm_num)

lemma round4_zero : round4 0 = 0 := round4_eq_self (n := 0) (by norm_num)

/-- C5: for the empty series, `compute_metrics` returns stability `0.0` and
volatility `0.0`.  The embedding is a total function, witnessing that this
input raises no exception: `_rolling_mean` and `_normalized_volatility`
both short-circuit on the empty list before any division. -/
theorem c5_empty_series (window_sec : ℕ) :
    (compute_metrics [] window_sec).interactionStability = 0 ∧
    (compute_metrics [] window_sec).signalVolatility = 0 := by
  have h1 : _rolling_mean [] = 0 := by rw [_rolling_mean, if_pos rfl]
  have h2 : _normalized_volatility ([] : List ℝ) = 0 := by
    rw [_normalized_volatility, if_pos rfl]
  simp only [compute_metrics, h1, h2, round4_zero]
  exact ⟨trivial, trivial⟩

/-- C9: the payload of `compute_metrics` unconditionally carries the legacy
mirror keys, equal to their canonical counterparts: `coherenceMean` equals
`interactionStability`, `volatilityIndex` equals `signalVolatility`, and
`predictedDriftRisk` equals `trustContinuityRiskLevel` — for every input,
regardless of the docstring's include_legacy remark. -/
theorem c9_legacy_mirrors (series : List ℝ) (window_sec : ℕ) :
    (compute_metrics series window_sec).coherenceMean =
      (compute_metrics series window_sec).interactionStability ∧
    (compute_metrics series window_sec).volatilityIndex =
      (compute_metrics series window_sec).signalVolatility ∧
    (compute_metrics series window_sec).predictedDriftRisk =
      (compute_metrics series window_sec).trustContinuityRiskLevel :=
  ⟨rfl, rfl, rfl⟩

/-- C8: for every series and window, the risk level is one of low, medium,
high; `interpretation.trustContinuity` is exactly the fixed map
low→Stable, medium→At Risk, high→Critical applied to the risk level; and
`interpretation.coherenceTrend` is identical to the top-level trend. -/
theorem c8_interpretation_consistency (series : List ℝ) (window_sec : ℕ) :
    ((compute_metrics series window_sec).trustContinuityRiskLevel = "low" ∨
      (compute_metrics series window_sec).trustContinuityRiskLevel = "medium" ∨
      (compute_metrics series window_sec).trustContinuityRiskLevel = "high") ∧
    (compute_metrics series window_sec).interpretation.trustContinuity =
      trust_continuity_map (compute_metrics series window_sec).trustContinuityRiskLevel ∧
    (compute_metrics series window_sec).interpretation.coherenceTrend =
      (compute_metrics series window_sec).coherenceTrend := by
  refine ⟨?_, ?_, ?_⟩
  · simp only [compute_metrics]
    rw [_risk_from_liquidity]
    split_ifs <;> simp
  · simp only [compute_metrics, trust_continuity_map]
  · rfl

/-- C4: for every non-empty constant series of value `v`, the pipeline
emits stability `round4 v` (the 4-decimal rounding the payload applies to
every float), volatility `0.0`, risk level low and trend Steady. -/
theorem c4_constant_series (series : List ℝ) (window_sec : ℕ) (v : ℝ)
    (h0 : series ≠ []) (h : ∀ x ∈ series, x = v) :
    (compute_metrics series window_sec).interactionStability = round4 v ∧
    (compute_metrics series window_sec).signalVolatility = 0 ∧
    (compute_metrics series window_sec).trustContinuityRiskLevel = "low" ∧
    (compute_metrics series window_sec).coherenceTrend = "Steady" := by
  have hst : _rolling_mean series = v := by
    rw [_rolling_mean, if_neg h0, mean_const h0 h]
  have hvol : _normalized_volatility series = 0 := normalized_volatility_const h0 h
  have hrisk : _risk_from_liquidity COHERENCE_WARN_THRESHOLD COHERENCE_CRITICAL_THRESHOLD
      (0 : ℝ) = "low" := by
    rw [_risk_from_liquidity, COHERENCE_WARN_THRESHOLD, if_pos (by norm_num)]
  have htr : _trend_label series = "Steady" := trend_label_const h
  simp only [compute_metrics, hst, hvol, htr, hrisk, round4_zero]
  exact ⟨trivial, trivial, trivial, trivial⟩

/-- C4 witness: the constant series `[3, 3, 3]` with window 60. -/
theorem c4_constant_series_witness :
    (compute_metrics [3, 3, 3] 60).interactionStability = 3 ∧
    (compute_metrics [3, 3, 3] 60).signalVolatility = 0 ∧
    (compute_metrics [3, 3, 3] 60).trustContinuityRiskLevel = "low" ∧
    (compute_metrics [3, 3, 3] 60).coherenceTrend = "Steady" := by
  have h := c4_constant_series [3, 3, 3] 60 3 (by simp) (by intro x hx; simpa using hx)
  have h3 : round4 (3 : ℝ) = 3 := round4_eq_self (n := 30000) (by norm_num)
  exact ⟨by rw [h.1, h3], h.2.1, h.2.2.1, h.2.2.2⟩

/-- C1 counterexample: on the series `[-1, -3]` (mean `-2`, population
stdev `1`) the code's `_normalized_volatility` returns `-0.5`: it divides
by the mean itself, so the result is negative and differs from
`stdev / |mean|`, refuting both the `stdev / abs(mean)` formula and the
claimed non-negativity for negative-mean series. -/
theorem c1_counterexample :
    _normalized_volatility [(-1 : ℝ), -3] = -(1 / 2) ∧
    _normalized_volatility [(-1 : ℝ), -3] < 0 ∧
    _normalized_volatility [(-1 : ℝ), -3] ≠
      pstdev [(-1 : ℝ), -3] / |mean [(-1 : ℝ), -3]| := by
  have hmean : mean [(-1 : ℝ), -3] = -2 := by
    rw [mean]
    norm_num
  have hpst : pstdev [(-1 : ℝ), -3] = 1 := by
    rw [pstdev, hmean]
    norm_num
  have habs : |mean [(-1 : ℝ), -3]| = 2 := by
    rw [hmean, abs_of_neg (by norm_num : (-2 : ℝ) < 0)]
    norm_num
  have hv : _normalized_volatility [(-1 : ℝ), -3] = -(1 / 2) := by
    rw [_normalized_volatility, if_neg (by simp), if_neg (by rw [hmean]; norm_num),
      hpst, hmean]
    norm_num
  refine ⟨hv, by rw [hv]; norm_num, ?_⟩
  rw [hv, hpst, habs]
  norm_num

/-- C1 (amended): for every non-empty series, `_normalized_volatility`
returns `0.0` when the mean is zero and `pstdev / mean` otherwise — the
divisor is the mean itself, not its absolute value.  Consequently the
value is non-negative whenever the mean is non-negative, and for a
negative mean it equals the negation of the spec's `stdev / |mean|`
formula. -/
theorem c1_amended (values : List ℝ) (h0 : values ≠ []) :
    (mean values = 0 → _normalized_volatility values = 0) ∧
    (mean values ≠ 0 → _normalized_volatility values = pstdev values / mean values) ∧
    (0 ≤ mean values → 0 ≤ _normalized_volatility values) ∧
    (mean values < 0 → _normalized_volatility values = -(pstdev values / |mean values|)) := by
  have hp : 0 ≤ pstdev values := by
    rw [pstdev]
    exact Real.sqrt_nonneg _
  refine ⟨?_, ?_, ?_, ?_⟩
  · intro hm
    rw [_normalized_volatility, if_neg h0, if_pos hm]
  · intro hm
    rw [_normalized_volatility, if_neg h0, if_neg hm]
  · intro hm
    rcases eq_or_lt_of_le hm with he | hlt
    · rw [_normalized_volatility, if_neg h0, if_pos he.symm]
    · rw [_normalized_volatility, if_neg h0, if_neg (ne_of_gt hlt)]
      exact div_nonneg hp hm
  · intro hm
    rw [_normalized_volatility, if_neg h0, if_neg (ne_of_lt hm), abs_of_neg hm,
      div_neg, neg_neg]

/-- C1 witness: the series `[2, 4]` has positive mean `3`, so the amended
formula applies and the volatility is non-negative there. -/
theorem c1_amended_witness :
    _normalized_volatility [(2 : ℝ), 4] = pstdev [(2 : ℝ), 4] / mean [(2 : ℝ), 4] ∧
    0 ≤ _normalized_volatility [(2 : ℝ), 4] := by
  have hm : mean [(2 : ℝ), 4] = 3 := by
    rw [mean]
    norm_num
  have h := c1_amended [(2 : ℝ), 4] (by simp)
  exact ⟨h.2.1 (by rw [hm]; norm_num), h.2.2.1 (by rw [hm]; norm_num)⟩

/-- C3 counterexample: with `DRIFT_LIQ_WARN=0.5` and `DRIFT_LIQ_CRIT=0.3`
(critical below warn), `_env_thresholds` does not fail: it silently
substitutes the default pair `(0.10, 0.25)` for the configured values. -/
theorem c3_counterexample :
    DriftSentry._env_thresholds (some (1 / 2)) (some (3 / 10)) = (10 / 100, 25 / 100) ∧
    DriftSentry._env_thresholds (some (1 / 2)) (some (3 / 10)) ≠ ((1 / 2 : ℝ), (3 / 10 : ℝ)) := by
  have he : DriftSentry._env_thresholds (some (1 / 2)) (some (3 / 10)) = (10 / 100, 25 / 100) := by
    simp only [DriftSentry._env_thresholds, Option.getD_some]
    rw [if_pos (Or.inr (Or.inr (by norm_num)))]
  refine ⟨he, ?_⟩
  rw [he]
  intro hc
  have hfst := congrArg Prod.fst hc
  norm_num at hfst

/-- C3 (amended): `_env_thresholds` never fails and never returns an
invalid pair: its result always satisfies `0 < warn < crit`, and whenever
the configured values violate `0 < warn`, `0 < crit` or `warn < crit` it
silently replaces them with the defaults `(0.10, 0.25)` and proceeds. -/
theorem c3_amended (warnEnv critEnv : Option ℝ) :
    0 < (DriftSentry._env_thresholds warnEnv critEnv).1 ∧
    (DriftSentry._env_thresholds warnEnv critEnv).1 <
      (DriftSentry._env_thresholds warnEnv critEnv).2 ∧
    ((warnEnv.getD (10 / 100) ≤ 0 ∨ critEnv.getD (25 / 100) ≤ 0 ∨
        critEnv.getD (25 / 100) ≤ warnEnv.getD (10 / 100)) →
      DriftSentry._env_thresholds warnEnv critEnv = (10 / 100, 25 / 100)) := by
  simp only [DriftSentry._env_thresholds]
  by_cases hc : warnEnv.getD (10 / 100) ≤ 0 ∨ critEnv.getD (25 / 100) ≤ 0 ∨
      critEnv.getD (25 / 100) ≤ warnEnv.getD (10 / 100)
  · rw [if_pos hc]
    exact ⟨by norm_num, by norm_num, fun _ => rfl⟩
  · have hc2 := hc
    rw [if_neg hc]
    push_neg at hc2
    exact ⟨hc2.1, hc2.2.2, fun hbad => absurd hbad hc⟩

/-- C3 witness: the out-of-order pair `(0.5, 0.3)` is replaced by the
defaults, and the returned pair is a valid configuration. -/
theorem c3_amended_witness :
    0 < (DriftSentry._env_thresholds (some (1 / 2)) (some (3 / 10))).1 ∧
    DriftSentry._env_thresholds (some (1 / 2)) (some (3 / 10)) = (10 / 100, 25 / 100) := by
  have h := c3_amended (some (1 / 2)) (some (3 / 10))
  exact ⟨h.1, h.2.2 (by simp only [Option.getD_some]; norm_num)⟩

/-- C6: for every volatility `v` and every threshold pair with
`warn < crit`, the classifier returns low exactly when `v < warn`, medium
exactly when `warn ≤ v < crit`, and high exactly when `v ≥ crit`; the
drift_sentry variant agrees with the metrics variant everywhere. -/
theorem c6_risk_bands (warn crit v : ℝ) (h : warn < crit) :
    (_risk_from_liquidity warn crit v = "low" ↔ v < warn) ∧
    (_risk_from_liquidity warn crit v = "medium" ↔ warn ≤ v ∧ v < crit) ∧
    (_risk_from_liquidity warn crit v = "high" ↔ crit ≤ v) ∧
    DriftSentry._risk_from_liquidity v warn crit = _risk_from_liquidity warn crit v := by
  rw [_risk_from_liquidity, DriftSentry._risk_from_liquidity]
  by_cases h1 : v < warn
  · have h2 : v < crit := h1.trans h
    have h3 : ¬ crit ≤ v := not_le.mpr h2
    have h4 : ¬ warn ≤ v := not_le.mpr h1
    rw [if_pos h1, if_neg h3, if_neg h4]
    exact ⟨iff_of_true rfl h1, iff_of_false (by decide) (fun hc => h4 hc.1),
      iff_of_false (by decide) h3, rfl⟩
  · by_cases h2 : v < crit
    · have h4 : warn ≤ v := not_lt.mp h1
      have h3 : ¬ crit ≤ v := not_le.mpr h2
      rw [if_neg h1, if_pos h2, if_neg h3, if_pos h4]
      exact ⟨iff_of_false (by decide) h1, iff_of_true rfl ⟨h4, h2⟩,
        iff_of_false (by decide) h3, rfl⟩
    · have h3 : crit ≤ v := not_lt.mp h2
      rw [if_neg h1, if_neg h2, if_pos h3]
      exact ⟨iff_of_false (by decide) h1, iff_of_false (by decide) (fun hc => h2 hc.2),
        iff_of_true rfl h3, rfl⟩

/-- C6 witness: at the default thresholds `(0.10, 0.25)`, volatility `0`
is low and volatility `0.15` is medium (via both variants). -/
theorem c6_risk_bands_witness :
    _risk_from_liquidity (10 / 100) (25 / 100) 0 = "low" ∧
    DriftSentry._risk_from_liquidity (15 / 100) (10 / 100) (25 / 100) = "medium" := by
  have h1 := c6_risk_bands (10 / 100) (25 / 100) 0 (by norm_num)
  have h2 := c6_risk_bands (10 / 100) (25 / 100) (15 / 100) (by norm_num)
  constructor
  · exact h1.1.mpr (by norm_num)
  · rw [h2.2.2.2]
    exact h2.2.1.mpr ⟨by norm_num, by norm_num⟩

/-- C7: the trend label is Steady for series shorter than 6; otherwise,
with `mid = n / 2`, first half `take mid`, second half `drop mid` and
`pct = (mean second - mean first) / |mean first|` (0 when the first-half
mean is 0), the label is Improving when `pct ≥ 0.03`, Deteriorating when
`pct ≤ -0.03`, Steady otherwise.  The right-hand side below is transcribed
from the spec's words. -/
theorem c7_trend_label (series : List ℝ) :
    (series.length < 6 → _trend_label series = "Steady") ∧
    (6 ≤ series.length →
      _trend_label series =
        (let mid := series.length / 2
         let first_half := series.take mid
         let second_half := series.drop mid
         let pct := if mean first_half = 0 then (0 : ℝ)
           else (mean second_half - mean first_half) / |mean first_half|
         if (3 / 100 : ℝ) ≤ pct then "Improving"
         else if pct ≤ -(3 / 100) then "Deteriorating"
         else "Steady")) := by
  constructor
  · intro h
    rw [_trend_label]
    simp only [if_pos h]
  · intro h
    have hn : ¬ series.length < 6 := Nat.not_lt.mpr h
    rw [_trend_label]
    simp only [if_neg hn]

/-- C7 witness: `[1]` is too short and labels Steady; the series
`[1, 1, 1, 2, 2, 2]` has first-half mean 1 and second-half mean 2, so
`pct = 1 ≥ 0.03` and it labels Improving. -/
theorem c7_trend_label_witness :
    _trend_label [(1 : ℝ)] = "Steady" ∧
    _trend_label [(1 : ℝ), 1, 1, 2, 2, 2] = "Improving" := by
  constructor
  · exact (c7_trend_label [(1 : ℝ)]).1 (by simp)
  · have h := (c7_trend_label [(1 : ℝ), 1, 1, 2, 2, 2]).2 (by simp)
    rw [h]
    norm_num [mean]

/-- C2: the shipped `main` of drift_sentry has no minimum-severity gate at
all: it takes no such parameter, and it builds and persists exactly one
incident file on every run whatever the risk level.  In particular, on a
low-risk input (a constant series, volatility 0, risk low) — where the
claim and the repository's own tests require that nothing be emitted when
the minimum severity is medium — an incident with risk `"low"` is still
materialized and persisted. -/
theorem c2_main_always_persists :
    (∀ (series : List ℝ) (window_sec : ℕ) (window_arg : String)
        (warnEnv critEnv : Option ℝ) (trace_source upstream now : String),
      (DriftSentry.main_written_incidents series window_sec window_arg warnEnv critEnv
          trace_source upstream now).length = 1) ∧
    DriftSentry.main_written_incidents (List.replicate 12 (9 / 10)) 86400 "24h" none none
        "coherence_engine_v0.1" "mock:synthetic" "2026-01-01T00:00:00Z" =
      [{ event := "trust_continuity_alert"
         timestamp := "2026-01-01T00:00:00Z"
         window := "24h"
         signalStability := 9 / 10
         signalLiquidity := 0
         trustContinuityRisk := "low"
         trace := { source := "coherence_engine_v0.1", upstream := "mock:synthetic" } }] := by
  constructor
  · intro series window_sec window_arg warnEnv critEnv trace_source upstream now
    rfl
  · have h0 : (List.replicate 12 ((9 : ℝ) / 10)) ≠ [] := by simp
    have hall : ∀ x ∈ List.replicate 12 ((9 : ℝ) / 10), x = 9 / 10 :=
      fun x hx => List.eq_of_mem_replicate hx
    have hst : _rolling_mean (List.replicate 12 ((9 : ℝ) / 10)) = 9 / 10 := by
      rw [_rolling_mean, if_neg h0, mean_const h0 hall]
    have hvol : _normalized_volatility (List.replicate 12 ((9 : ℝ) / 10)) = 0 :=
      normalized_volatility_const h0 hall
    have hr4 : round4 ((9 : ℝ) / 10) = 9 / 10 := round4_eq_self (n := 9000) (by norm_num)
    have henv : DriftSentry._env_thresholds none none = (10 / 100, 25 / 100) := by
      simp only [DriftSentry._env_thresholds, Option.getD_none]
      rw [if_neg (by norm_num)]
    have hrisk : DriftSentry._risk_from_liquidity 0 (10 / 100) (25 / 100) = "low" := by
      rw [DriftSentry._risk_from_liquidity, if_neg (by norm_num), if_neg (by norm_num)]
    simp only [DriftSentry.main_written_incidents, compute_metrics, henv,
      DriftSentry._as_duration_label, DriftSentry.build_incident, hst, hvol,
      round4_zero, hr4, hrisk]

/-- C10: the legacy v0 analytics on degenerate input: an empty row list
yields `(nan, nan, 0)`; a series with zero mean and positive sample stdev
(scores `-1` and `1`) yields a `+inf` volatility index; and
`classify_drift_risk` maps any NaN input to the string `"unknown"`, a
fourth value outside the documented low/medium/high set. -/
theorem c10_v0_degenerates :
    V0.compute_basic_metrics [] = (V0.EF.nan, V0.EF.nan, 0) ∧
    V0.compute_basic_metrics [some (-1), some 1] = (V0.EF.val 0, V0.EF.inf, 2) ∧
    (∀ vi : V0.EF, V0.classify_drift_risk V0.EF.nan vi = "unknown") ∧
    (∀ cm : V0.EF, V0.classify_drift_risk cm V0.EF.nan = "unknown") ∧
    "unknown" ≠ "low" ∧ "unknown" ≠ "medium" ∧ "unknown" ≠ "high" := by
  refine ⟨?_, ?_, ?_, ?_, by decide, by decide, by decide⟩
  · rw [V0.compute_basic_metrics, if_pos rfl]
  · have hm : mean [(-1 : ℝ), 1] = 0 := by
      rw [mean]
      norm_num
    rw [V0.compute_basic_metrics, if_neg (by simp)]
    simp only [List.filterMap_cons, id_eq, List.filterMap_nil, List.length_cons,
      List.length_nil, hm]
    norm_num
  · intro vi
    rw [V0.classify_drift_risk, if_pos (Or.inl rfl)]
  · intro cm
    rw [V0.classify_drift_risk, if_pos (Or.inr rfl)]

/-- C5 witness: the empty series at window 60. -/
theorem c5_empty_series_witness :
    (compute_metrics [] 60).interactionStability = 0 ∧
    (compute_metrics [] 60).signalVolatility = 0 :=
  c5_empty_series 60

/-- C8 witness: the consistency invariant at the empty series, window 0. -/
theorem c8_interpretation_consistency_witness :
    ((compute_metrics [] 0).trustContinuityRiskLevel = "low" ∨
      (compute_metrics [] 0).trustContinuityRiskLevel = "medium" ∨
      (compute_metrics [] 0).trustContinuityRiskLevel = "high") ∧
    (compute_metrics [] 0).interpretation.trustContinuity =
      trust_continuity_map (compute_metrics [] 0).trustContinuityRiskLevel ∧
    (compute_metrics [] 0).interpretation.coherenceTrend =
      (compute_metrics [] 0).coherenceTrend :=
  c8_interpretation_consistency [] 0

/-- C9 witness: the legacy mirrors at a concrete input. -/
theorem c9_legacy_mirrors_witness :
    (compute_metrics [1, 2] 30).coherenceMean =
      (compute_metrics [1, 2] 30).interactionStability ∧
    (compute_metrics [1, 2] 30).volatilityIndex =
      (compute_metrics [1, 2] 30).signalVolatility ∧
    (compute_metrics [1, 2] 30).predictedDriftRisk =
      (compute_metrics [1, 2] 30).trustContinuityRiskLevel :=
  c9_legacy_mirrors [1, 2] 30

/-- C2 witness: a concrete run writes exactly one incident file. -/
theorem c2_main_always_persists_witness :
    (DriftSentry.main_written_incidents [] 45 "45s" none none "s" "u" "t").length = 1 :=
  c2_main_always_persists.1 [] 45 "45s" none none "s" "u" "t"

/-- C10 witness: a NaN coherence mean classifies as "unknown". -/
theorem c10_v0_degenerates_witness :
    V0.classify_drift_risk V0.EF.nan (V0.EF.val (15 / 100)) = "unknown" :=
  c10_v0_degenerates.2.2.1 (V0.EF.val (15 / 100))

end

end CoherenceEngine
